import Mathlib

/-!
Shallow embedding of the intake GUI catalog-adding fragment
(src/intake/gui/catalog/add.py and src/intake/gui/__init__.py).

Conventions of the embedding:

* Widget attributes (TextInput.value, MultiSelect.value, SVG.object, Button
  state) are plain fields of an explicit state record.
* Assigning a watched widget value fires the registered param watchers
  synchronously, in registration order, and only when the new value differs
  from the old one (param fires watchers on change events only).  Handlers
  are therefore folded into the setter functions below.
* Python dynamic values that can be either a string or a list of strings
  (MultiSelect.value after a state restore) are modelled by the inductive
  type PyV; Python exceptions are modelled with Except and the PyErr type.
* os.path functions (dirname, join, sep handling) follow posixpath with
  separator "/"; Python string comparison is code-point lexicographic and
  is modelled by lexLe / pyLe below.
* The filesystem and the external collaborators (intake.open_catalog, the
  done callbacks) are parameters of the operations that use them.
-/

namespace IntakeAdd

/-- Python value that is either a string or a list of strings.  MultiSelect
value is normally a list, but FileSelector restore can assign a bare
string to it, so both shapes must be representable. -/
inductive PyV where
  | str (s : String)
  | list (xs : List String)
deriving DecidableEq, Repr

/-- Python exception, carrying the kind and the message. -/
inductive PyErr where
  | typeError (msg : String)
  | attributeError (msg : String)
  | runtimeError (msg : String)
  | exn (msg : String)
deriving DecidableEq, Repr

/-- Python len() for a PyV: length of the string or of the list. -/
def pyLen : PyV → Nat
  | .str s => s.length
  | .list xs => xs.length

/-- Python indexing v[0] for a PyV: first character of a string (as a
one-character string), or first element of a list.  Only used under a
pyLen check, mirroring the source guards. -/
def pyFirst : PyV → String
  | .str s => String.mk (s.data.take 1)
  | .list xs => xs.headD ""

/-- Code-point lexicographic order on character lists, the order Python
uses to compare strings (and hence the order of sorted()). -/
def lexLe : List Char → List Char → Bool
  | [], _ => true
  | _ :: _, [] => false
  | a :: as, b :: bs =>
    if a.toNat = b.toNat then lexLe as bs else Nat.blt a.toNat b.toNat

/-- Python string comparison s <= t, as a proposition. -/
def pyLe (s t : String) : Prop := lexLe s.data t.data = true

instance : DecidableRel pyLe := fun _ _ => inferInstanceAs (Decidable (_ = true))

/-- Python sorted() on a list of strings: stable sort in code-point
lexicographic order. -/
def pySorted (l : List String) : List String := List.insertionSort pyLe l

/-- Python str.startswith. -/
def pyStartsWith (s pre : String) : Bool := List.isPrefixOf pre.data s.data

/-- Python str.endswith. -/
def pyEndsWith (s suf : String) : Bool := List.isSuffixOf suf.data s.data

/-- POSIX path separator, os.path.sep. -/
def pySep : String := "/"

/-- Python str.rstrip(os.path.sep): drop trailing separator characters. -/
def rstripSep (s : String) : String :=
  String.mk ((s.data.reverse.dropWhile (· == '/')).reverse)

/-- posixpath.dirname: everything up to and including the last separator,
then trailing separators stripped unless the result is all separators. -/
def dirname (p : String) : String :=
  let head := (p.data.reverse.dropWhile (· ≠ '/')).reverse
  if head ≠ [] ∧ ¬ head.all (· == '/') then
    String.mk ((head.reverse.dropWhile (· == '/')).reverse)
  else
    String.mk head

/-- posixpath.join for two components, second component a string. -/
def pathJoin (a b : String) : String :=
  if pyStartsWith b pySep then b
  else if a = "" ∨ pyEndsWith a pySep then a ++ b
  else a ++ pySep ++ b

/-- Substring test: pat occurs somewhere in s.  Used to state that the
diagnostic messages of the import stubs mention the dependency. -/
def strContains (s pat : String) : Bool :=
  (List.range (s.length + 1)).any
    (fun i => ((s.data.drop i).take pat.data.length) == pat.data)

/-- Abstract filesystem collaborator: directory test, listing, file test
and the working directory.  os and os.path are external to the fragment,
so they are parameters of the operations that consult them. -/
structure FS where
  isdir : String → Bool
  listdir : String → List String
  isfile : String → Bool
  cwd : String

/-- Observable state of a FileSelector (the PathBrowser of the spec).
done_calls logs every invocation of the external done_callback together
with its boolean argument; main_events logs every change event fired on
main.value (consumed by the watcher CatAdder registers on that widget). -/
structure FileSelectorState where
  path_text : String
  main_value : PyV
  main_options : List String
  validator_error : Bool
  done_calls : List Bool
  main_events : List PyV
deriving DecidableEq, Repr

namespace FileSelector

/-- Property FileSelector.path: path_text.value, trailing-separator
normalized. -/
def path (st : FileSelectorState) : String :=
  if pyEndsWith st.path_text pySep then st.path_text else st.path_text ++ pySep

/-- Property FileSelector.selected: first element of main.value when it is
nonempty, otherwise the empty Python list (not None). -/
def selected (st : FileSelectorState) : PyV :=
  if pyLen st.main_value > 0 then .str (pyFirst st.main_value) else .list []

/-- Property FileSelector.url: the source guards on selected being not
None, which never holds (selected is a string or the empty list), so the
join is always attempted; os.path.join raises TypeError when handed the
empty-list selection. -/
def url (st : FileSelectorState) : Except PyErr String :=
  match selected st with
  | .str s => .ok (pathJoin (path st) s)
  | .list _ =>
      .error (.typeError "expected str, bytes or os.PathLike object, not list")

/-- Handler FileSelector.validate: clear the error icon when path is a
directory, set it otherwise. -/
def validate (fsys : FS) (st : FileSelectorState) : FileSelectorState :=
  { st with validator_error := ¬ fsys.isdir (path st) }

/-- Handler FileSelector.make_options: invoke done_callback(False) when a
callback was given, list the directory (skip hidden names, annotate
subdirectories with the separator, keep files matching a filter suffix),
reset the selection and replace the options.  The sequential mutations of
the source commute into one record update: the listing reads only
path_text, which the done call leaves untouched.  The internal assignment
main.value = [] fires move_down with an empty event, which does nothing,
so it is modelled as a logged plain update. -/
def make_options (fsys : FS) (filters : List String) (hasCb : Bool)
    (st : FileSelectorState) : FileSelectorState :=
  let out : List String :=
    if fsys.isdir (path st) then
      (pySorted (fsys.listdir (path st))).foldl
        (fun acc f =>
          if pyStartsWith f "." then acc
          else if fsys.isdir (pathJoin (path st) f) then acc ++ [f ++ pySep]
          else if filters.any (fun ext => pyEndsWith f ext) then acc ++ [f]
          else acc)
        []
    else []
  { st with
    done_calls := if hasCb then st.done_calls ++ [false] else st.done_calls
    main_value := .list []
    main_events :=
      if st.main_value = .list [] then st.main_events
      else st.main_events ++ [.list []]
    main_options := out }

/-- Assignment to path_text.value: on an actual change the watchers fire
in registration order, validate first, then make_options. -/
def set_path_text (fsys : FS) (filters : List String) (hasCb : Bool)
    (v : String) (st : FileSelectorState) : FileSelectorState :=
  if v = st.path_text then st
  else make_options fsys filters hasCb (validate fsys { st with path_text := v })

/-- Handler FileSelector.move_down, run on a change event of main.value
with the new value already stored.  A directory entry navigates into it
(path assignment plus an explicit make_options call); a file entry fires
done_callback(True) when the joined path is an existing file.  In the file
branch the selection is nonempty, so url cannot raise there; the error arm
of the match is unreachable. -/
def move_down (fsys : FS) (filters : List String) (hasCb : Bool)
    (newVal : PyV) (st : FileSelectorState) : FileSelectorState :=
  if pyLen newVal > 0 then
    let fn := pyFirst newVal
    if pyEndsWith fn pySep then
      let st1 := set_path_text fsys filters hasCb (path st ++ fn) st
      make_options fsys filters hasCb st1
    else if ((match url st with | .ok u => fsys.isfile u | .error _ => false) && hasCb) then
      { st with done_calls := st.done_calls ++ [true] }
    else st
  else st

/-- Assignment to main.value: on an actual change the event is logged and
the move_down watcher fires on the updated state. -/
def set_main_value (fsys : FS) (filters : List String) (hasCb : Bool)
    (v : PyV) (st : FileSelectorState) : FileSelectorState :=
  if v = st.main_value then st
  else
    move_down fsys filters hasCb v
      { st with main_value := v, main_events := st.main_events ++ [v] }

/-- Handler FileSelector.move_up: assign the parent directory (dirname of
the separator-stripped current path, re-suffixed) to path_text. -/
def move_up (fsys : FS) (filters : List String) (hasCb : Bool)
    (st : FileSelectorState) : FileSelectorState :=
  set_path_text fsys filters hasCb (dirname (rstripSep (path st)) ++ pySep) st

/-- Handler FileSelector.go_home: assign the working directory to
path_text. -/
def go_home (fsys : FS) (filters : List String) (hasCb : Bool)
    (st : FileSelectorState) : FileSelectorState :=
  set_path_text fsys filters hasCb (fsys.cwd ++ pySep) st

/-- Snapshot produced by FileSelector.__getstate__. -/
structure Snap where
  path : String
  selected : PyV
deriving DecidableEq, Repr

/-- FileSelector.__getstate__. -/
def getstate (st : FileSelectorState) : Snap :=
  { path := path st, selected := selected st }

/-- FileSelector.__setstate__: plain attribute assignments to the two
watched widget values, so the corresponding watchers fire on change. -/
def setstate (fsys : FS) (filters : List String) (hasCb : Bool)
    (snap : Snap) (st : FileSelectorState) : FileSelectorState :=
  set_main_value fsys filters hasCb snap.selected
    (set_path_text fsys filters hasCb snap.path st)

/-- State of a freshly constructed FileSelector: path_text starts at the
working directory plus separator, and setup runs make_options once (the
watchers are registered only afterwards, but make_options invokes the done
callback directly, so that invocation is logged even at construction). -/
def init (fsys : FS) (filters : List String) (hasCb : Bool) : FileSelectorState :=
  make_options fsys filters hasCb
    { path_text := fsys.cwd ++ pySep
      main_value := .list []
      main_options := []
      validator_error := false
      done_calls := []
      main_events := [] }

end FileSelector

/-- Observable state of a URLSelector (the RemoteLocator of the spec): the
free text of its single input widget.  URLSelector registers no watchers of
its own; the watcher CatAdder puts on this widget is folded into the
CatAdder-level setter below. -/
structure URLSelectorState where
  main_value : String
deriving DecidableEq, Repr

namespace URLSelector

/-- URLSelector.__getstate__ stores the url property, which is the raw
text. -/
def getstate (st : URLSelectorState) : String := st.main_value

/-- URLSelector.__setstate__ assigns the text back. -/
def setstate (v : String) (_st : URLSelectorState) : URLSelectorState :=
  { main_value := v }

end URLSelector

/-- Observable state of a CatAdder: its FileSelector child, the text of
its URLSelector child, the active tab index, the visible flag, the
disabled flag of the Add Catalog button and its own error icon. -/
structure CatAdderState where
  fsSt : FileSelectorState
  url_value : String
  active : Nat
  visible : Bool
  widget_disabled : Bool
  validator_error : Bool
deriving DecidableEq, Repr

namespace CatAdder

/-- Filters the CatAdder FileSelector is constructed with (the
FileSelector default). -/
def defaultFilters : List String := ["yaml", "yml"]

/-- Modelled from the spec: enable_widget lives in intake/gui/base.py,
which is not part of this fragment.  Per the spec, the child
selection-changed notification with value true enables the confirm action
and with value false disables it, so the new disabled flag is the negation
of the callback argument. -/
def enable_widget (ok : Bool) : Bool := !ok

/-- Handler CatAdder.remove_error: clear the CatAdder error icon. -/
def remove_error (st : CatAdderState) : CatAdderState :=
  { st with validator_error := false }

/-- Run a FileSelector operation on the child and apply the effects of the
callbacks it fired: the partial enable_widget bound as the child
done_callback rewrites widget_disabled for each logged invocation, and the
watcher CatAdder registers on the child main.value runs remove_error for
each logged change event.  The FileSelector operations never read
widget_disabled or validator_error and the two handlers write nothing
else, so replaying the logged effects after the operation produces the
same final state as the actual interleaving. -/
def liftFs (op : FileSelectorState → FileSelectorState)
    (st : CatAdderState) : CatAdderState :=
  let fs1 := op st.fsSt
  let newCalls := fs1.done_calls.drop st.fsSt.done_calls.length
  let newEvents := fs1.main_events.drop st.fsSt.main_events.length
  { st with
    fsSt := fs1
    widget_disabled := newCalls.foldl (fun _ b => enable_widget b) st.widget_disabled
    validator_error := if newEvents.isEmpty then st.validator_error else false }

/-- Handler CatAdder.tab_change, run after tabs.active has changed: clear
the error icon, and enable the confirm button when the new tab is the URL
tab (index 1). -/
def tab_change (newTab : Nat) (st : CatAdderState) : CatAdderState :=
  if newTab = 1 then { remove_error st with widget_disabled := false }
  else remove_error st

/-- Assignment to tabs.active: on an actual change the tab_change watcher
fires on the updated state. -/
def set_active (n : Nat) (st : CatAdderState) : CatAdderState :=
  if n = st.active then st else tab_change n { st with active := n }

/-- Assignment to the URLSelector text: on an actual change the
remove_error watcher CatAdder registered on it fires. -/
def set_url_value (v : String) (st : CatAdderState) : CatAdderState :=
  if v = st.url_value then st else remove_error { st with url_value := v }

/-- Property CatAdder.cat_url: the url of the selector on the active tab
(selectors = [FileSelector, URLSelector]). -/
def cat_url (st : CatAdderState) : Except PyErr String :=
  match st.active with
  | 0 => FileSelector.url st.fsSt
  | 1 => .ok st.url_value
  | _ => .error (.exn "IndexError: list index out of range")

/-- Handler CatAdder.add_cat.  Inside the try block the catalog handle is
built from cat_url by the external open_catalog collaborator and handed to
the external done_callback; then visible is set to False.  Any exception
in that block (cat_url itself, catalog construction, or the callback) sets
the error icon and is re-raised.  The result carries the new state, the
list of done_callback invocations and the exception that propagated, if
any. -/
def add_cat {κ : Type} (openCat : String → Except PyErr κ)
    (doneCb : κ → Except PyErr Unit) (st : CatAdderState) :
    CatAdderState × List κ × Option PyErr :=
  match cat_url st with
  | .error e => ({ st with validator_error := true }, [], some e)
  | .ok u =>
    match openCat u with
    | .error e => ({ st with validator_error := true }, [], some e)
    | .ok c =>
      match doneCb c with
      | .error e => ({ st with validator_error := true }, [c], some e)
      | .ok _ => ({ st with visible := false }, [c], none)

/-- Snapshot produced by CatAdder.__getstate__. -/
structure Snap where
  visible : Bool
  localSnap : FileSelector.Snap
  remote : String
  active : Nat
deriving DecidableEq, Repr

/-- CatAdder.__getstate__ (tabs is always set once the component is
constructed, so the active index is read from it). -/
def getstate (st : CatAdderState) : Snap :=
  { visible := st.visible
    localSnap := FileSelector.getstate st.fsSt
    remote := st.url_value
    active := st.active }

/-- CatAdder.__setstate__: restore both children (their watched widget
assignments fire the registered watchers), set visible, and only when
visible restore the active tab index (an assignment that itself fires
tab_change on change). -/
def setstate (fsys : FS) (snap : Snap) (st : CatAdderState) : CatAdderState :=
  let st1 := liftFs (FileSelector.setstate fsys defaultFilters true snap.localSnap) st
  let st2 := set_url_value snap.remote st1
  let st3 := { st2 with visible := snap.visible }
  if st3.visible then set_active snap.active st3 else st3

/-- State of a freshly constructed CatAdder: the Add Catalog button starts
disabled, the FileSelector child is constructed with the default filters
and enable_widget as its done callback (its construction-time
done_callback(False) keeps the button disabled), the first tab is active
and the component is visible (Base constructs visible by default, per the
spec initial state Visible-NoSelection). -/
def init (fsys : FS) : CatAdderState :=
  { fsSt := FileSelector.init fsys defaultFilters true
    url_value := ""
    active := 0
    visible := true
    widget_disabled := true
    validator_error := false }

end CatAdder

/-- Keep test of the spec wording for one directory entry: not hidden, and
either a subdirectory or a file matching one of the configured filters. -/
def keepEntry (fsys : FS) (filters : List String) (p f : String) : Bool :=
  !(pyStartsWith f ".") &&
    (fsys.isdir (pathJoin p f) || filters.any (fun ext => pyEndsWith f ext))

/-- Annotation of the spec wording for one kept entry: subdirectories are
suffixed with the separator, files are kept as they are. -/
def annotateEntry (fsys : FS) (p f : String) : String :=
  if fsys.isdir (pathJoin p f) then f ++ pySep else f

/-- Formulated from the spec words: refreshEntries on a valid directory
yields exactly the non-hidden subdirectories (annotated with the
separator) and the non-hidden files matching the configured filters,
sorted, and the empty list on an invalid directory.  The sort is by entry
name; the comparison with the source loop is the subject of claim C5. -/
def specOptions (fsys : FS) (filters : List String) (p : String) : List String :=
  if fsys.isdir p then
    (pySorted ((fsys.listdir p).filter (keepEntry fsys filters p))).map
      (annotateEntry fsys p)
  else []

end IntakeAdd

namespace IntakeGuiInit

open IntakeAdd (PyErr)

/-- Result kind of do_import in intake/gui/__init__.py: the first stub
class (panel missing or too old), the real GUI (external to this
fragment), or the second stub class (the .gui import or the panel
extension initialisation failed). -/
inductive GUIKind where
  | stubImport (errMsg : String)
  | real
  | stubInit
deriving DecidableEq, Repr

/-- Fixed part of the first stub message, before the %s splice. -/
def importPreamble : String :=
  "Please install panel to use the GUI `conda install -c conda-forge panel>=0.8.0`. Import failed with error: "

/-- Message of the first stub: names panel and the version 0.8.0 and
appends the string form of the import error (which is the string False
when panel imported but was too old, since error keeps its initial
value). -/
def importFailMsg (e : String) : String := importPreamble ++ e

/-- Message of the second stub: names panel and the version 0.9.5. -/
def initFailMsg : String :=
  "Initialisation of GUI failed, even though panel is installed. Please update it to a more recent version (`conda install -c conda-forge panel>=0.9.5`)."

/-- Model of do_import: panelImport carries the import error message when
importing panel fails; tooOld is the LooseVersion comparison against 0.9.5
(evaluated only when the import succeeded); guiInitOk tells whether the
.gui import and the extension setup succeeded.  When the import failed or
the version was too old the first stub is returned, with str(error) spliced
into its message. -/
def do_import (panelImport : Except String Unit) (tooOld : Bool)
    (guiInitOk : Bool) : GUIKind :=
  match panelImport with
  | .error e => .stubImport e
  | .ok _ => if tooOld then .stubImport "False"
             else if guiInitOk then .real else .stubInit

/-- String representation of a GUI instance: both stubs raise RuntimeError
with their diagnostic from __repr__; the real GUI is external and opaque
here. -/
def guiRepr : GUIKind → Except PyErr String
  | .stubImport e => .error (.runtimeError (importFailMsg e))
  | .stubInit => .error (.runtimeError initFailMsg)
  | .real => .ok "GUI"

/-- Attribute access on a GUI instance: the stub classes define nothing
except __repr__, so a regular attribute lookup on them raises
AttributeError (Python object semantics); the real GUI is opaque. -/
def guiGetattr : GUIKind → String → Except PyErr Unit
  | .stubImport _, a => .error (.attributeError a)
  | .stubInit, a => .error (.attributeError a)
  | .real, _ => .ok ()

/-- Item access on a GUI instance: plain objects are not subscriptable, so
the stubs raise TypeError; the real GUI is opaque. -/
def guiGetitem : GUIKind → String → Except PyErr Unit
  | .stubImport _, _ => .error (.typeError "object is not subscriptable")
  | .stubInit, _ => .error (.typeError "object is not subscriptable")
  | .real, _ => .ok ()

/-- Default members every Python object enumerates. -/
def objectDefaultMembers : List String :=
  ["__class__", "__delattr__", "__dict__", "__dir__", "__doc__", "__eq__",
   "__format__", "__ge__", "__getattribute__", "__gt__", "__hash__",
   "__le__", "__lt__", "__ne__", "__new__", "__reduce__", "__repr__",
   "__setattr__", "__sizeof__", "__str__", "__subclasshook__"]

/-- Member enumeration of a GUI instance: dir() succeeds on the stubs and
returns the default object members (the stubs define no extra public
names). -/
def guiDir : GUIKind → Except PyErr (List String)
  | _ => .ok objectDefaultMembers

/-- Kinds of access InstanceMaker intercepts: attribute access, item
access, string representation and member enumeration. -/
inductive Access where
  | attr (name : String)
  | item (key : String)
  | rep
  | members
deriving DecidableEq, Repr

/-- State of an InstanceMaker: the cached instance and, as
instrumentation, the number of factory invocations so far. -/
structure IMState (α : Type) where
  cached : Option α
  factoryCalls : Nat
deriving DecidableEq, Repr

/-- State of a freshly constructed InstanceMaker: nothing cached. -/
def imInit {α : Type} : IMState α := { cached := none, factoryCalls := 0 }

/-- InstanceMaker._instantiate: build and cache the instance on first use,
reuse the cache afterwards.  The factory takes the invocation index so
that a factory whose successive calls would differ is representable. -/
def instantiate {α : Type} (factory : Nat → α) (st : IMState α) :
    α × IMState α :=
  match st.cached with
  | some i => (i, st)
  | none =>
    let i := factory st.factoryCalls
    (i, { cached := some i, factoryCalls := st.factoryCalls + 1 })

/-- One intercepted access: __getattr__, __getitem__, __repr__ and __dir__
all call _instantiate first and then forward the operation to the cached
instance through fwd. -/
def imAccess {α β : Type} (factory : Nat → α) (fwd : α → Access → β)
    (a : Access) (st : IMState α) : IMState α × β :=
  let p := instantiate factory st
  (p.2, fwd p.1 a)

/-- Run a sequence of intercepted accesses, collecting the forwarded
results. -/
def imRun {α β : Type} (factory : Nat → α) (fwd : α → Access → β)
    (as : List Access) (st : IMState α) : IMState α × List β :=
  match as with
  | [] => (st, [])
  | a :: rest =>
    let p := imAccess factory fwd a st
    let q := imRun factory fwd rest p.1
    (q.1, p.2 :: q.2)

end IntakeGuiInit

namespace IntakeAdd

/-! Concrete fixtures used by the witnesses and counterexamples. -/

/-- Trivial filesystem: nothing exists, working directory /d. -/
def fs0 : FS :=
  { isdir := fun _ => false
    listdir := fun _ => []
    isfile := fun _ => false
    cwd := "/d" }

/-- Filesystem with a single catalog file /d/cat.yaml in the working
directory /d. -/
def fs2 : FS :=
  { isdir := fun p => p == "/d/"
    listdir := fun p => if p == "/d/" then ["cat.yaml"] else []
    isfile := fun p => p == "/d/cat.yaml"
    cwd := "/d" }

/-- Filesystem holding directory /p with a subdirectory named a and a file
named a!.yaml. -/
def fsSort : FS :=
  { isdir := fun p => p == "/p/" || p == "/p/a"
    listdir := fun p => if p == "/p/" then ["a", "a!.yaml"] else []
    isfile := fun _ => false
    cwd := "/p" }

/-- FileSelector state sitting at directory /a/b/ with nothing selected. -/
def stA : FileSelectorState :=
  { path_text := "/a/b/"
    main_value := .list []
    main_options := []
    validator_error := false
    done_calls := []
    main_events := [] }

/-- FileSelector state sitting at directory /p/ with nothing selected. -/
def stP : FileSelectorState :=
  { path_text := "/p/"
    main_value := .list []
    main_options := []
    validator_error := false
    done_calls := []
    main_events := [] }

/-- Reachable FileSelector state on fs2 where the user has selected the
entry cat.yaml out of the listed options (the MultiSelect change event
with the new list value). -/
def sSel : FileSelectorState :=
  FileSelector.set_main_value fs2 ["yaml", "yml"] false (.list ["cat.yaml"])
    (FileSelector.init fs2 ["yaml", "yml"] false)

/-! Order lemmas: pyLe is a total preorder with antisymmetry, which makes
the Python sort order on strings unique for a given multiset. -/

theorem char_toNat_inj {a b : Char} (h : a.toNat = b.toNat) : a = b := by
  have ha := Char.ofNat_toNat a
  rw [← ha, h, Char.ofNat_toNat]

theorem lexLe_total : ∀ l₁ l₂ : List Char, lexLe l₁ l₂ = true ∨ lexLe l₂ l₁ = true := by
  intro l₁
  induction l₁ with
  | nil => intro l₂; left; rfl
  | cons a as ih =>
    intro l₂
    cases l₂ with
    | nil => right; rfl
    | cons b bs =>
      by_cases h : a.toNat = b.toNat
      · rcases ih bs with h1 | h1
        · left; simpa [lexLe, h] using h1
        · right; simpa [lexLe, h.symm] using h1
      · rcases Nat.lt_or_ge a.toNat b.toNat with hlt | hge
        · left; simp [lexLe, h, Nat.blt_eq, hlt]
        · have hne : b.toNat ≠ a.toNat := fun hh => h hh.symm
          have hlt : b.toNat < a.toNat := Nat.lt_of_le_of_ne hge hne
          right; simp [lexLe, hne, Nat.blt_eq, hlt]

theorem lexLe_trans :
    ∀ l₁ l₂ l₃ : List Char, lexLe l₁ l₂ = true → lexLe l₂ l₃ = true →
      lexLe l₁ l₃ = true := by
  intro l₁
  induction l₁ with
  | nil => intro l₂ l₃ _ _; rfl
  | cons a as ih =>
    intro l₂ l₃ h12 h23
    cases l₂ with
    | nil => simp [lexLe] at h12
    | cons b bs =>
      cases l₃ with
      | nil => simp [lexLe] at h23
      | cons c cs =>
        by_cases hab : a.toNat = b.toNat <;> by_cases hbc : b.toNat = c.toNat
        · rw [lexLe, if_pos hab] at h12
          rw [lexLe, if_pos hbc] at h23
          rw [lexLe, if_pos (hab.trans hbc)]
          exact ih bs cs h12 h23
        · rw [lexLe, if_neg hbc, Nat.blt_eq] at h23
          have hac : a.toNat < c.toNat := by rw [hab]; exact h23
          rw [lexLe, if_neg (Nat.ne_of_lt hac), Nat.blt_eq]
          exact hac
        · rw [lexLe, if_neg hab, Nat.blt_eq] at h12
          have hac : a.toNat < c.toNat := by rw [← hbc]; exact h12
          rw [lexLe, if_neg (Nat.ne_of_lt hac), Nat.blt_eq]
          exact hac
        · rw [lexLe, if_neg hab, Nat.blt_eq] at h12
          rw [lexLe, if_neg hbc, Nat.blt_eq] at h23
          have : a.toNat < c.toNat := Nat.lt_trans h12 h23
          have hne : a.toNat ≠ c.toNat := Nat.ne_of_lt this
          rw [lexLe, if_neg hne, Nat.blt_eq]
          exact this

theorem lexLe_antisymm :
    ∀ l₁ l₂ : List Char, lexLe l₁ l₂ = true → lexLe l₂ l₁ = true → l₁ = l₂ := by
  intro l₁
  induction l₁ with
  | nil =>
    intro l₂ _ h21
    cases l₂ with
    | nil => rfl
    | cons b bs => simp [lexLe] at h21
  | cons a as ih =>
    intro l₂ h12 h21
    cases l₂ with
    | nil => simp [lexLe] at h12
    | cons b bs =>
      by_cases hab : a.toNat = b.toNat
      · have hba : b.toNat = a.toNat := hab.symm
        rw [lexLe, if_pos hab] at h12
        rw [lexLe, if_pos hba] at h21
        rw [char_toNat_inj hab, ih bs h12 h21]
      · have hba : b.toNat ≠ a.toNat := fun hh => hab hh.symm
        rw [lexLe, if_neg hab, Nat.blt_eq] at h12
        rw [lexLe, if_neg hba, Nat.blt_eq] at h21
        exact absurd (Nat.lt_trans h12 h21) (Nat.lt_irrefl _)

instance : IsTotal String pyLe := ⟨fun a b => lexLe_total a.data b.data⟩

instance : IsTrans String pyLe := ⟨fun a b c => lexLe_trans a.data b.data c.data⟩

instance : IsAntisymm String pyLe :=
  ⟨fun a b h1 h2 => String.ext (lexLe_antisymm a.data b.data h1 h2)⟩

/-! Path normalization lemmas. -/

theorem pyEndsWith_append_sep (s : String) : pyEndsWith (s ++ pySep) pySep = true := by
  simp [pyEndsWith, pySep, String.data_append, List.isSuffixOf, List.isPrefixOf]

theorem path_endsWith (st : FileSelectorState) :
    pyEndsWith (FileSelector.path st) pySep = true := by
  rw [FileSelector.path]
  split
  · assumption
  · exact pyEndsWith_append_sep _

theorem path_eq_self {st : FileSelectorState}
    (h : pyEndsWith st.path_text pySep = true) :
    FileSelector.path st = st.path_text := by
  rw [FileSelector.path, if_pos h]

namespace FileSelector

/-! Frame lemmas for the FileSelector operations. -/

theorem make_options_path_text (fsys : FS) (filters : List String)
    (hasCb : Bool) (st : FileSelectorState) :
    (make_options fsys filters hasCb st).path_text = st.path_text := rfl

theorem make_options_main_value (fsys : FS) (filters : List String)
    (hasCb : Bool) (st : FileSelectorState) :
    (make_options fsys filters hasCb st).main_value = .list [] := rfl

theorem make_options_done_calls_cb (fsys : FS) (filters : List String)
    (st : FileSelectorState) :
    (make_options fsys filters true st).done_calls = st.done_calls ++ [false] := rfl

theorem set_path_text_path_text (fsys : FS) (filters : List String)
    (hasCb : Bool) (v : String) (st : FileSelectorState) :
    (set_path_text fsys filters hasCb v st).path_text = v := by
  rw [set_path_text]
  split
  next h => exact h.symm
  next => rfl

theorem set_path_text_main_value (fsys : FS) (filters : List String)
    (hasCb : Bool) (v : String) {st : FileSelectorState}
    (h : st.main_value = .list []) :
    (set_path_text fsys filters hasCb v st).main_value = .list [] := by
  rw [set_path_text]
  split
  · exact h
  · rfl

theorem set_path_text_done_calls_ne (fsys : FS) (filters : List String)
    (v : String) {st : FileSelectorState} (h : v ≠ st.path_text) :
    (set_path_text fsys filters true v st).done_calls = st.done_calls ++ [false] := by
  rw [set_path_text, if_neg h]
  rfl

theorem set_main_value_self (fsys : FS) (filters : List String) (hasCb : Bool)
    {v : PyV} {st : FileSelectorState} (h : v = st.main_value) :
    set_main_value fsys filters hasCb v st = st := by
  rw [set_main_value, if_pos h]

theorem path_set_path_text (fsys : FS) (filters : List String) (hasCb : Bool)
    {v : String} (hv : pyEndsWith v pySep = true) (st : FileSelectorState) :
    path (set_path_text fsys filters hasCb v st) = v := by
  have h := set_path_text_path_text fsys filters hasCb v st
  rw [path, h, if_pos hv]

end FileSelector

/-! Equivalence of the make_options listing loop with the spec-side
filter-sort-annotate formulation (claim C5). -/

/-- Outcome of one iteration of the make_options loop for one entry. -/
def entryOut (fsys : FS) (filters : List String) (p f : String) : Option String :=
  if pyStartsWith f "." then none
  else if fsys.isdir (pathJoin p f) then some (f ++ pySep)
  else if filters.any (fun ext => pyEndsWith f ext) then some f
  else none

theorem foldl_entry_eq_filterMap (fsys : FS) (filters : List String) (p : String) :
    ∀ (l : List String) (acc : List String),
      l.foldl
        (fun acc f =>
          if pyStartsWith f "." then acc
          else if fsys.isdir (pathJoin p f) then acc ++ [f ++ pySep]
          else if filters.any (fun ext => pyEndsWith f ext) then acc ++ [f]
          else acc)
        acc
      = acc ++ l.filterMap (entryOut fsys filters p) := by
  intro l
  induction l with
  | nil => intro acc; simp
  | cons f rest ih =>
    intro acc
    rw [List.foldl_cons, List.filterMap_cons, ih]
    rw [entryOut]
    by_cases h1 : pyStartsWith f "." = true
    · simp [h1]
    · by_cases h2 : fsys.isdir (pathJoin p f) = true
      · simp [h1, h2]
      · by_cases h3 : filters.any (fun ext => pyEndsWith f ext) = true
        · simp [h1, h2, h3]
        · simp [h1, h2, h3]

theorem filterMap_entryOut (fsys : FS) (filters : List String) (p : String) :
    ∀ l : List String,
      l.filterMap (entryOut fsys filters p)
        = (l.filter (keepEntry fsys filters p)).map (annotateEntry fsys p) := by
  intro l
  induction l with
  | nil => rfl
  | cons f rest ih =>
    rw [List.filterMap_cons, List.filter_cons]
    by_cases h1 : pyStartsWith f "." = true
    · have hk : keepEntry fsys filters p f = false := by simp [keepEntry, h1]
      have he : entryOut fsys filters p f = none := by simp [entryOut, h1]
      simp [he, hk, ih]
    · by_cases h2 : fsys.isdir (pathJoin p f) = true
      · have hk : keepEntry fsys filters p f = true := by simp [keepEntry, h1, h2]
        have he : entryOut fsys filters p f = some (f ++ pySep) := by
          simp [entryOut, h1, h2]
        have ha : annotateEntry fsys p f = f ++ pySep := by simp [annotateEntry, h2]
        simp [he, hk, ha, ih]
      · by_cases h3 : filters.any (fun ext => pyEndsWith f ext) = true
        · have hk : keepEntry fsys filters p f = true := by simp [keepEntry, h1, h2, h3]
          have he : entryOut fsys filters p f = some f := by simp [entryOut, h1, h2, h3]
          have ha : annotateEntry fsys p f = f := by simp [annotateEntry, h2]
          simp [he, hk, ha, ih]
        · have hk : keepEntry fsys filters p f = false := by simp [keepEntry, h1, h2, h3]
          have he : entryOut fsys filters p f = none := by simp [entryOut, h1, h2, h3]
          simp [he, hk, ih]

theorem filter_pySorted (q : String → Bool) (l : List String) :
    (pySorted l).filter q = pySorted (l.filter q) := by
  apply List.eq_of_perm_of_sorted (r := pyLe)
  · exact ((List.perm_insertionSort pyLe l).filter q).trans
      (List.perm_insertionSort pyLe (l.filter q)).symm
  · exact List.Pairwise.sublist (List.filter_sublist _)
      (List.sorted_insertionSort pyLe l)
  · exact List.sorted_insertionSort pyLe _

theorem make_options_main_options (fsys : FS) (filters : List String)
    (hasCb : Bool) (st : FileSelectorState) :
    (FileSelector.make_options fsys filters hasCb st).main_options
      = specOptions fsys filters (FileSelector.path st) := by
  show (if fsys.isdir (FileSelector.path st) then _ else []) = _
  rw [specOptions]
  split
  · rw [foldl_entry_eq_filterMap, List.nil_append, filterMap_entryOut,
      filter_pySorted]
  · rfl

namespace FileSelector

/-- Observable effect of restoring a snapshot with an empty selection into
a component whose selection is empty (any freshly constructed component
qualifies): the path and the selection of the source state are reproduced,
and the restored selection is the empty list. -/
theorem setstate_obs_fs (fsys : FS) (filters : List String) (hasCb : Bool)
    (st tgt : FileSelectorState)
    (hsel : pyLen st.main_value = 0) (htgt : tgt.main_value = .list []) :
    path (setstate fsys filters hasCb (getstate st) tgt) = path st ∧
    selected (setstate fsys filters hasCb (getstate st) tgt) = selected st ∧
    (setstate fsys filters hasCb (getstate st) tgt).main_value = .list [] := by
  have hss : selected st = .list [] := by simp [selected, hsel]
  have hgs : getstate st = { path := path st, selected := .list [] } := by
    rw [getstate, hss]
  rw [setstate, hgs]
  have h1 : (set_path_text fsys filters hasCb (path st) tgt).main_value = .list [] :=
    set_path_text_main_value fsys filters hasCb (path st) htgt
  have h2 := set_main_value_self fsys filters hasCb
    (v := PyV.list []) h1.symm
  rw [h2]
  have h3 : (set_path_text fsys filters hasCb (path st) tgt).path_text = path st :=
    set_path_text_path_text fsys filters hasCb (path st) tgt
  have he : pyEndsWith (set_path_text fsys filters hasCb (path st) tgt).path_text pySep = true := by
    rw [h3]; exact path_endsWith st
  refine ⟨?_, ?_, h1⟩
  · rw [path_eq_self he, h3]
  · have h4 : selected (set_path_text fsys filters hasCb (path st) tgt) = PyV.list [] := by
      rw [selected, h1]
      rfl
    rw [h4]
    exact hss.symm

end FileSelector

namespace CatAdder

/-! Frame lemmas for the CatAdder operations. -/

theorem liftFs_fsSt (op : FileSelectorState → FileSelectorState)
    (st : CatAdderState) : (liftFs op st).fsSt = op st.fsSt := rfl

theorem liftFs_url_value (op : FileSelectorState → FileSelectorState)
    (st : CatAdderState) : (liftFs op st).url_value = st.url_value := rfl

theorem liftFs_active (op : FileSelectorState → FileSelectorState)
    (st : CatAdderState) : (liftFs op st).active = st.active := rfl

theorem liftFs_visible (op : FileSelectorState → FileSelectorState)
    (st : CatAdderState) : (liftFs op st).visible = st.visible := rfl

theorem set_url_value_url_value (v : String) (st : CatAdderState) :
    (set_url_value v st).url_value = v := by
  rw [set_url_value]
  split
  next h => exact h.symm
  next => rfl

theorem set_url_value_fsSt (v : String) (st : CatAdderState) :
    (set_url_value v st).fsSt = st.fsSt := by
  rw [set_url_value]; split <;> rfl

theorem set_url_value_active (v : String) (st : CatAdderState) :
    (set_url_value v st).active = st.active := by
  rw [set_url_value]; split <;> rfl

theorem set_url_value_visible (v : String) (st : CatAdderState) :
    (set_url_value v st).visible = st.visible := by
  rw [set_url_value]; split <;> rfl

theorem set_active_active (n : Nat) (st : CatAdderState) :
    (set_active n st).active = n := by
  rw [set_active]
  split
  next h => exact h.symm
  next => rw [tab_change]; split <;> rfl

theorem set_active_fsSt (n : Nat) (st : CatAdderState) :
    (set_active n st).fsSt = st.fsSt := by
  rw [set_active]
  split
  · rfl
  · rw [tab_change]; split <;> rfl

theorem set_active_url_value (n : Nat) (st : CatAdderState) :
    (set_active n st).url_value = st.url_value := by
  rw [set_active]
  split
  · rfl
  · rw [tab_change]; split <;> rfl

theorem set_active_visible (n : Nat) (st : CatAdderState) :
    (set_active n st).visible = st.visible := by
  rw [set_active]
  split
  · rfl
  · rw [tab_change]; split <;> rfl

/-! Projection lemmas for CatAdder.setstate. -/

theorem setstate_fsSt (fsys : FS) (snap : Snap) (st : CatAdderState) :
    (setstate fsys snap st).fsSt
      = FileSelector.setstate fsys defaultFilters true snap.localSnap st.fsSt := by
  simp only [setstate, apply_ite (fun s : CatAdderState => s.fsSt),
    set_active_fsSt, set_url_value_fsSt, liftFs_fsSt, ite_self]

theorem setstate_url_value (fsys : FS) (snap : Snap) (st : CatAdderState) :
    (setstate fsys snap st).url_value = snap.remote := by
  simp only [setstate, apply_ite (fun s : CatAdderState => s.url_value),
    set_active_url_value, set_url_value_url_value, ite_self]

theorem setstate_visible (fsys : FS) (snap : Snap) (st : CatAdderState) :
    (setstate fsys snap st).visible = snap.visible := by
  simp only [setstate, apply_ite (fun s : CatAdderState => s.visible),
    set_active_visible, ite_self]

theorem setstate_active (fsys : FS) (snap : Snap) (st : CatAdderState) :
    (setstate fsys snap st).active
      = (if snap.visible = true then snap.active else st.active) := by
  simp only [setstate, apply_ite (fun s : CatAdderState => s.active),
    set_active_active, set_url_value_active, liftFs_active]

/-- Observable effect of restoring a CatAdder snapshot with an empty local
selection into a fresh CatAdder, provided the captured state was visible
or had the first tab active: path, selection, url text, active tab index
and visible flag are reproduced. -/
theorem setstate_obs_cat (fsys : FS) {st : CatAdderState}
    (hsel : pyLen st.fsSt.main_value = 0)
    (hvis : st.visible = true ∨ st.active = 0) :
    FileSelector.path (setstate fsys (getstate st) (init fsys)).fsSt
        = FileSelector.path st.fsSt ∧
    FileSelector.selected (setstate fsys (getstate st) (init fsys)).fsSt
        = FileSelector.selected st.fsSt ∧
    (setstate fsys (getstate st) (init fsys)).url_value = st.url_value ∧
    (setstate fsys (getstate st) (init fsys)).active = st.active ∧
    (setstate fsys (getstate st) (init fsys)).visible = st.visible := by
  have htgt : (init fsys).fsSt.main_value = .list [] := rfl
  have hobs := FileSelector.setstate_obs_fs fsys defaultFilters true
    st.fsSt (init fsys).fsSt hsel htgt
  refine ⟨?_, ?_, ?_, ?_, ?_⟩
  · rw [setstate_fsSt]
    exact hobs.1
  · rw [setstate_fsSt]
    exact hobs.2.1
  · rw [setstate_url_value]
    rfl
  · rw [setstate_active]
    show (if st.visible = true then st.active else (init fsys).active) = st.active
    by_cases hv : st.visible = true
    · rw [if_pos hv]
    · rw [if_neg hv]
      show (0 : Nat) = st.active
      rcases hvis with h | h
      · exact absurd h hv
      · exact h.symm
  · rw [setstate_visible]
    rfl

end CatAdder

end IntakeAdd

namespace IntakeAdd

/-- Containment survives appending on the right, used for the stub
diagnostics whose tail is the spliced import error. -/
theorem strContains_append (s t pat : String) (h : strContains s pat = true) :
    strContains (s ++ t) pat = true := by
  rw [strContains, List.any_eq_true] at h ⊢
  obtain ⟨i, hi, hp⟩ := h
  rw [List.mem_range] at hi
  have hp' : (s.data.drop i).take pat.data.length = pat.data := beq_iff_eq.mp hp
  have hlen : pat.data.length ≤ s.data.length - i := by
    have hl := congrArg List.length hp'
    rw [List.length_take, List.length_drop] at hl
    omega
  have hsd : s.length = s.data.length := rfl
  have hi' : i ≤ s.data.length := by omega
  refine ⟨i, ?_, ?_⟩
  · rw [List.mem_range, String.length_append]
    omega
  · rw [String.data_append, List.drop_append_of_le_length hi',
      List.take_append_of_le_length (by rw [List.length_drop]; exact hlen), hp']
    exact beq_self_eq_true _

end IntakeAdd

namespace IntakeGuiInit

/-- Once an instance is cached, further accesses leave the proxy state
unchanged and forward to the cached instance. -/
theorem imRun_cached {α β : Type} (factory : Nat → α) (fwd : α → Access → β)
    (i : α) (n : Nat) :
    ∀ as : List Access,
      imRun factory fwd as { cached := some i, factoryCalls := n }
        = ({ cached := some i, factoryCalls := n }, as.map (fun a => fwd i a)) := by
  intro as
  induction as with
  | nil => rfl
  | cons a rest ih => simp only [imRun, imAccess, instantiate, ih, List.map_cons]

end IntakeGuiInit

/-!
Claim theorems.  Each theorem settles one claim of the specification
against the embedded code.
-/

namespace IntakeAdd

/-- External collaborators and states used by the witnesses. -/
def openCatFail : String → Except PyErr Unit :=
  fun _ => .error (.exn "FileNotFoundError: /tmp/nonexistent.yaml")

/-- Done callback that always succeeds (unit handles). -/
def doneCbUnit : Unit → Except PyErr Unit := fun _ => .ok ()

/-- CatAdder on the remote tab pointing at a location that cannot be
opened. -/
def stRemote : CatAdderState :=
  { CatAdder.init fs0 with active := 1, url_value := "/tmp/nonexistent.yaml" }

/-- Catalog opener that succeeds, producing a string handle. -/
def openCatOk : String → Except PyErr String := fun s => .ok ("catalog at " ++ s)

/-- Done callback that accepts a string handle and succeeds. -/
def doneCbStr : String → Except PyErr Unit := fun _ => .ok ()

/-- CatAdder on the remote tab pointing at an openable location. -/
def stRemoteOk : CatAdderState :=
  { CatAdder.init fs0 with active := 1, url_value := "sources/cat.yaml" }

/-- Claim C1: whenever the CatAdder confirm action fails — building the
catalog handle from the active tab resolved location fails (the cat_url
property itself or the external open_catalog), or invoking the external
done callback fails — the error indicator is set, the exception is
re-raised to the caller rather than swallowed, and the visible flag stays
true. -/
theorem claim_C1_confirm_failure {κ : Type}
    (openCat : String → Except PyErr κ) (doneCb : κ → Except PyErr Unit)
    (st : CatAdderState) (hvis : st.visible = true)
    (hfail :
      (∃ e, CatAdder.cat_url st = .error e) ∨
      (∃ u e, CatAdder.cat_url st = .ok u ∧ openCat u = .error e) ∨
      (∃ u c e, CatAdder.cat_url st = .ok u ∧ openCat u = .ok c ∧
        doneCb c = .error e)) :
    (CatAdder.add_cat openCat doneCb st).1.validator_error = true ∧
    (CatAdder.add_cat openCat doneCb st).2.2 ≠ none ∧
    (CatAdder.add_cat openCat doneCb st).1.visible = true := by
  rcases hfail with ⟨e, he⟩ | ⟨u, e, hu, he⟩ | ⟨u, c, e, hu, hc, he⟩
  · simp [CatAdder.add_cat, he, hvis]
  · simp [CatAdder.add_cat, hu, he, hvis]
  · simp [CatAdder.add_cat, hu, hc, he, hvis]

/-- Claim C1 witness: confirming on the remote tab with location
/tmp/nonexistent.yaml, where catalog construction fails, sets the error
icon, re-raises, and leaves the component visible. -/
theorem claim_C1_witness :
    stRemote.visible = true ∧
    (∃ u e, CatAdder.cat_url stRemote = .ok u ∧ openCatFail u = .error e) ∧
    ((CatAdder.add_cat openCatFail doneCbUnit stRemote).1.validator_error = true ∧
     (CatAdder.add_cat openCatFail doneCbUnit stRemote).2.2 ≠ none ∧
     (CatAdder.add_cat openCatFail doneCbUnit stRemote).1.visible = true) :=
  ⟨rfl,
   ⟨"/tmp/nonexistent.yaml", .exn "FileNotFoundError: /tmp/nonexistent.yaml", rfl, rfl⟩,
   claim_C1_confirm_failure openCatFail doneCbUnit stRemote rfl
     (Or.inr (Or.inl ⟨"/tmp/nonexistent.yaml",
       .exn "FileNotFoundError: /tmp/nonexistent.yaml", rfl, rfl⟩))⟩

/-- Claim C2: when building the catalog handle and invoking the done
callback both succeed, the callback is invoked exactly once, with the
constructed handle, and the visible flag is then set to false; no
exception propagates. -/
theorem claim_C2_confirm_success {κ : Type}
    (openCat : String → Except PyErr κ) (doneCb : κ → Except PyErr Unit)
    (st : CatAdderState) (u : String) (c : κ)
    (hu : CatAdder.cat_url st = .ok u) (hc : openCat u = .ok c)
    (hd : doneCb c = .ok ()) :
    (CatAdder.add_cat openCat doneCb st).2.1 = [c] ∧
    (CatAdder.add_cat openCat doneCb st).1.visible = false ∧
    (CatAdder.add_cat openCat doneCb st).2.2 = none := by
  simp [CatAdder.add_cat, hu, hc, hd]

/-- Claim C2 witness: confirming on the remote tab with an openable
location invokes the completion callback once with the handle and hides
the component. -/
theorem claim_C2_witness :
    CatAdder.cat_url stRemoteOk = .ok "sources/cat.yaml" ∧
    openCatOk "sources/cat.yaml" = .ok "catalog at sources/cat.yaml" ∧
    doneCbStr "catalog at sources/cat.yaml" = .ok () ∧
    ((CatAdder.add_cat openCatOk doneCbStr stRemoteOk).2.1
        = ["catalog at sources/cat.yaml"] ∧
     (CatAdder.add_cat openCatOk doneCbStr stRemoteOk).1.visible = false ∧
     (CatAdder.add_cat openCatOk doneCbStr stRemoteOk).2.2 = none) :=
  ⟨rfl, rfl, rfl,
   claim_C2_confirm_success openCatOk doneCbStr stRemoteOk
     "sources/cat.yaml" "catalog at sources/cat.yaml" rfl rfl rfl⟩

/-- Claim C3 counterexample: the claim fails as stated.  In a reachable
FileSelector state with the file cat.yaml selected, the snapshot stores
selected as the bare string, restore assigns that string to the
MultiSelect value, and the restored selectedEntry becomes its first
character c instead of cat.yaml. -/
theorem claim_C3_counterexample :
    FileSelector.selected
        (FileSelector.setstate fs2 ["yaml", "yml"] false
          (FileSelector.getstate sSel)
          (FileSelector.init fs2 ["yaml", "yml"] false))
      ≠ FileSelector.selected sSel := by decide

/-- Claim C3 (amended): restoring a captured state into a fresh component
of the same kind reproduces the observable state — currentDirectory and
selectedEntry for the PathBrowser, the url text for the RemoteLocator,
and children, active tab index and visible flag for the CatalogAdder —
provided the captured PathBrowser selection is empty and the captured
CatalogAdder was visible or had its first tab active (while hidden the
tab index is deliberately not restored, and a fresh component starts at
tab 0). -/
theorem claim_C3_amended (fsys : FS) (filters : List String) (hasCb : Bool)
    (stf : FileSelectorState) (stu : URLSelectorState) (stc : CatAdderState)
    (hself : pyLen stf.main_value = 0)
    (hselc : pyLen stc.fsSt.main_value = 0)
    (hvisc : stc.visible = true ∨ stc.active = 0) :
    (FileSelector.path (FileSelector.setstate fsys filters hasCb
        (FileSelector.getstate stf) (FileSelector.init fsys filters hasCb))
          = FileSelector.path stf ∧
     FileSelector.selected (FileSelector.setstate fsys filters hasCb
        (FileSelector.getstate stf) (FileSelector.init fsys filters hasCb))
          = FileSelector.selected stf) ∧
    URLSelector.setstate (URLSelector.getstate stu) { main_value := "" } = stu ∧
    (FileSelector.path (CatAdder.setstate fsys (CatAdder.getstate stc)
          (CatAdder.init fsys)).fsSt
        = FileSelector.path stc.fsSt ∧
     FileSelector.selected (CatAdder.setstate fsys (CatAdder.getstate stc)
          (CatAdder.init fsys)).fsSt
        = FileSelector.selected stc.fsSt ∧
     (CatAdder.setstate fsys (CatAdder.getstate stc) (CatAdder.init fsys)).url_value
        = stc.url_value ∧
     (CatAdder.setstate fsys (CatAdder.getstate stc) (CatAdder.init fsys)).active
        = stc.active ∧
     (CatAdder.setstate fsys (CatAdder.getstate stc) (CatAdder.init fsys)).visible
        = stc.visible) := by
  have hf := FileSelector.setstate_obs_fs fsys filters hasCb stf
    (FileSelector.init fsys filters hasCb) hself rfl
  refine ⟨⟨hf.1, hf.2.1⟩, ?_, CatAdder.setstate_obs_cat fsys hselc hvisc⟩
  cases stu
  rfl

/-- Claim C3 witness: the amended roundtrip at a concrete visible
CatalogAdder on the remote tab, an empty-selection PathBrowser at /a/b/,
and a RemoteLocator holding a url. -/
theorem claim_C3_witness :
    pyLen stA.main_value = 0 ∧
    pyLen (CatAdder.set_active 1 (CatAdder.init fs0)).fsSt.main_value = 0 ∧
    ((CatAdder.set_active 1 (CatAdder.init fs0)).visible = true ∨
      (CatAdder.set_active 1 (CatAdder.init fs0)).active = 0) ∧
    ((FileSelector.path (FileSelector.setstate fs0 ["yaml", "yml"] false
        (FileSelector.getstate stA) (FileSelector.init fs0 ["yaml", "yml"] false))
          = FileSelector.path stA ∧
      FileSelector.selected (FileSelector.setstate fs0 ["yaml", "yml"] false
        (FileSelector.getstate stA) (FileSelector.init fs0 ["yaml", "yml"] false))
          = FileSelector.selected stA) ∧
     URLSelector.setstate
        (URLSelector.getstate { main_value := "remote-cat.yaml" })
        { main_value := "" }
       = ({ main_value := "remote-cat.yaml" } : URLSelectorState) ∧
     (FileSelector.path (CatAdder.setstate fs0
          (CatAdder.getstate (CatAdder.set_active 1 (CatAdder.init fs0)))
          (CatAdder.init fs0)).fsSt
        = FileSelector.path (CatAdder.set_active 1 (CatAdder.init fs0)).fsSt ∧
      FileSelector.selected (CatAdder.setstate fs0
          (CatAdder.getstate (CatAdder.set_active 1 (CatAdder.init fs0)))
          (CatAdder.init fs0)).fsSt
        = FileSelector.selected (CatAdder.set_active 1 (CatAdder.init fs0)).fsSt ∧
      (CatAdder.setstate fs0
          (CatAdder.getstate (CatAdder.set_active 1 (CatAdder.init fs0)))
          (CatAdder.init fs0)).url_value
        = (CatAdder.set_active 1 (CatAdder.init fs0)).url_value ∧
      (CatAdder.setstate fs0
          (CatAdder.getstate (CatAdder.set_active 1 (CatAdder.init fs0)))
          (CatAdder.init fs0)).active
        = (CatAdder.set_active 1 (CatAdder.init fs0)).active ∧
      (CatAdder.setstate fs0
          (CatAdder.getstate (CatAdder.set_active 1 (CatAdder.init fs0)))
          (CatAdder.init fs0)).visible
        = (CatAdder.set_active 1 (CatAdder.init fs0)).visible)) :=
  ⟨by decide, by decide, Or.inl (by decide),
   claim_C3_amended fs0 ["yaml", "yml"] false stA { main_value := "remote-cat.yaml" }
     (CatAdder.set_active 1 (CatAdder.init fs0))
     (by decide) (by decide) (Or.inl (by decide))⟩

/-- Claim C4 counterexample: from currentDirectory /a/b/ the second
navigateUp does not yield / as claimed; it yields the double separator
(dirname of /a is the bare separator, to which move_up appends another
separator). -/
theorem claim_C4_counterexample :
    FileSelector.path (FileSelector.move_up fs0 ["yaml", "yml"] false
        (FileSelector.move_up fs0 ["yaml", "yml"] false stA)) ≠ "/" ∧
    FileSelector.path (FileSelector.move_up fs0 ["yaml", "yml"] false
        (FileSelector.move_up fs0 ["yaml", "yml"] false stA)) = "//" := by
  constructor
  · decide
  · decide

/-- Claim C4 (amended): navigateUp from /a/b/ yields currentDirectory
/a/, and applied again it yields // (a doubled separator still denoting
the root directory) rather than /. -/
theorem claim_C4_amended (fsys : FS) (filters : List String) (hasCb : Bool)
    (st : FileSelectorState) (h : FileSelector.path st = "/a/b/") :
    FileSelector.path (FileSelector.move_up fsys filters hasCb st) = "/a/" ∧
    FileSelector.path (FileSelector.move_up fsys filters hasCb
        (FileSelector.move_up fsys filters hasCb st)) = "//" := by
  have e1 : dirname (rstripSep "/a/b/") ++ pySep = "/a/" := by decide
  have e2 : dirname (rstripSep "/a/") ++ pySep = "//" := by decide
  have h1 : FileSelector.move_up fsys filters hasCb st
      = FileSelector.set_path_text fsys filters hasCb "/a/" st := by
    rw [FileSelector.move_up, h, e1]
  have hp1 : FileSelector.path (FileSelector.move_up fsys filters hasCb st) = "/a/" := by
    rw [h1]
    exact FileSelector.path_set_path_text fsys filters hasCb (by decide) st
  refine ⟨hp1, ?_⟩
  rw [FileSelector.move_up, hp1, e2]
  exact FileSelector.path_set_path_text fsys filters hasCb (by decide) _

/-- Claim C4 witness: the amended navigation chain evaluated at the
concrete state sitting at /a/b/. -/
theorem claim_C4_witness :
    FileSelector.path stA = "/a/b/" ∧
    (FileSelector.path (FileSelector.move_up fs0 ["yaml", "yml"] false stA) = "/a/" ∧
     FileSelector.path (FileSelector.move_up fs0 ["yaml", "yml"] false
        (FileSelector.move_up fs0 ["yaml", "yml"] false stA)) = "//") :=
  ⟨by decide, claim_C4_amended fs0 ["yaml", "yml"] false stA (by decide)⟩

/-- Claim C5 counterexample: the produced entry list is not always in
lexicographic order.  In a directory holding a subdirectory a and a file
a!.yaml, the produced list is [a/, a!.yaml], but a!.yaml sorts before a/
(the exclamation mark precedes the separator), because the code sorts the
raw names before appending the separator annotation. -/
theorem claim_C5_counterexample :
    (FileSelector.make_options fsSort ["yaml"] false stP).main_options
        = ["a/", "a!.yaml"] ∧
    ¬ List.Pairwise pyLe
        (FileSelector.make_options fsSort ["yaml"] false stP).main_options := by
  constructor
  · decide
  · decide

/-- Claim C5 (amended): refreshEntries produces exactly the non-hidden
subdirectories (suffixed with the separator) plus the non-hidden files
matching one of the configured filters, ordered lexicographically by the
underlying entry name (the separator annotation is appended after
sorting); on an invalid directory the list is empty; the selection is
reset in all cases. -/
theorem claim_C5_amended (fsys : FS) (filters : List String) (hasCb : Bool)
    (st : FileSelectorState) :
    (FileSelector.make_options fsys filters hasCb st).main_options
        = specOptions fsys filters (FileSelector.path st) ∧
    (FileSelector.make_options fsys filters hasCb st).main_value = .list [] :=
  ⟨make_options_main_options fsys filters hasCb st, rfl⟩

/-- Claim C6: the claim matches the clear intent of the code (guard the
join behind "a selection exists") but not its behavior: selected yields
the empty list, never None, so the None-guard always passes and
os.path.join raises TypeError when nothing is selected, instead of url
being absent without failing.  With a selection the join is returned as
claimed. -/
theorem claim_C6_url_behavior :
    FileSelector.selected (FileSelector.init fs0 ["yaml", "yml"] false) = .list [] ∧
    FileSelector.url (FileSelector.init fs0 ["yaml", "yml"] false)
      = .error (.typeError "expected str, bytes or os.PathLike object, not list") ∧
    FileSelector.url sSel = .ok "/d/cat.yaml" := by
  refine ⟨by decide, rfl, rfl⟩

/-- Claim C9 counterexample: restoring a snapshot whose path differs from
the current one into a set-up FileSelector with a done callback fires the
selection-changed notification (the path assignment triggers
make_options, which invokes done_callback(False)), so restore is not a
pure state assignment. -/
theorem claim_C9_counterexample :
    (FileSelector.setstate fs0 ["yaml", "yml"] true
        { path := "/x/", selected := .list [] }
        (FileSelector.init fs0 ["yaml", "yml"] true)).done_calls
      ≠ (FileSelector.init fs0 ["yaml", "yml"] true).done_calls := by decide

/-- Claim C9 (amended): restoring a snapshot with an empty selection and
a path that differs from the current path_text fires the
selection-changed notification exactly once, with value false, via the
watcher chain on the path widget; it is not a pure state assignment. -/
theorem claim_C9_amended (fsys : FS) (filters : List String)
    (snap : FileSelector.Snap) (st : FileSelectorState)
    (hpath : snap.path ≠ st.path_text) (hsel : snap.selected = .list []) :
    (FileSelector.setstate fsys filters true snap st).done_calls
      = st.done_calls ++ [false] := by
  rw [FileSelector.setstate]
  have h1 : FileSelector.set_path_text fsys filters true snap.path st
      = FileSelector.make_options fsys filters true
          (FileSelector.validate fsys { st with path_text := snap.path }) := by
    rw [FileSelector.set_path_text, if_neg hpath]
  have h2 : (FileSelector.set_path_text fsys filters true snap.path st).main_value
      = .list [] := by
    rw [h1]
    rfl
  rw [hsel, FileSelector.set_main_value_self fsys filters true h2.symm, h1]
  rfl

/-- Claim C9 witness: the amended restore-notification behavior at a
concrete snapshot and component. -/
theorem claim_C9_witness :
    ({ path := "/x/", selected := .list [] } : FileSelector.Snap).path
        ≠ (FileSelector.init fs0 ["yaml", "yml"] true).path_text ∧
    ({ path := "/x/", selected := .list [] } : FileSelector.Snap).selected
        = .list [] ∧
    (FileSelector.setstate fs0 ["yaml", "yml"] true
        { path := "/x/", selected := .list [] }
        (FileSelector.init fs0 ["yaml", "yml"] true)).done_calls
      = (FileSelector.init fs0 ["yaml", "yml"] true).done_calls ++ [false] :=
  ⟨by decide, rfl,
   claim_C9_amended fs0 ["yaml", "yml"]
     { path := "/x/", selected := .list [] }
     (FileSelector.init fs0 ["yaml", "yml"] true) (by decide) rfl⟩

/-- Claim C10: a tab change never disables the confirm action — the
handler only clears the error indicator and, when the new tab is the
remote one (index 1), enables the button; every other field is left
unchanged.  Consequently switching from the local tab to the remote tab
and back, with no path edit and nothing selected, leaves the button
enabled. -/
theorem claim_C10_tab_change :
    (∀ n st, (CatAdder.tab_change n st).validator_error = false) ∧
    (∀ n st, (CatAdder.tab_change n st).widget_disabled
        = (if n = 1 then false else st.widget_disabled)) ∧
    (∀ n st, (CatAdder.tab_change n st).fsSt = st.fsSt ∧
       (CatAdder.tab_change n st).url_value = st.url_value ∧
       (CatAdder.tab_change n st).active = st.active ∧
       (CatAdder.tab_change n st).visible = st.visible) ∧
    (∀ n st, (CatAdder.set_active n st).widget_disabled
        = (if n ≠ st.active ∧ n = 1 then false else st.widget_disabled)) ∧
    ((CatAdder.set_active 0 (CatAdder.set_active 1 (CatAdder.init fs0))).widget_disabled
        = false ∧
     FileSelector.selected
        (CatAdder.set_active 0 (CatAdder.set_active 1 (CatAdder.init fs0))).fsSt
        = .list [] ∧
     (CatAdder.set_active 0 (CatAdder.set_active 1 (CatAdder.init fs0))).active = 0) := by
  refine ⟨?_, ?_, ?_, ?_, by decide, by decide, by decide⟩
  · intro n st
    rw [CatAdder.tab_change]
    by_cases h : n = 1
    · rw [if_pos h]
      rfl
    · rw [if_neg h]
      rfl
  · intro n st
    rw [CatAdder.tab_change]
    by_cases h : n = 1
    · rw [if_pos h, if_pos h]
    · rw [if_neg h, if_neg h]
      rfl
  · intro n st
    rw [CatAdder.tab_change]
    by_cases h : n = 1
    · rw [if_pos h]
      exact ⟨rfl, rfl, rfl, rfl⟩
    · rw [if_neg h]
      exact ⟨rfl, rfl, rfl, rfl⟩
  · intro n st
    rw [CatAdder.set_active]
    by_cases h : n = st.active
    · rw [if_pos h, if_neg]
      intro hx
      exact hx.1 h
    · rw [if_neg h, CatAdder.tab_change]
      by_cases h1 : n = 1
      · rw [if_pos h1, if_pos ⟨h, h1⟩]
      · rw [if_neg h1, if_neg]
        · rfl
        · intro hx
          exact h1 hx.2

end IntakeAdd

namespace IntakeGuiInit

/-- Claim C7 counterexample: not every use of the failed-factory stub
fails.  Member enumeration (dir) of the stub produced when importing
panel fails succeeds and returns the default object members, so the stub
does not fail on every use, let alone with the descriptive error. -/
theorem claim_C7_counterexample :
    guiDir (do_import (Except.error "No module named panel") false false)
      = .ok objectDefaultMembers := rfl

set_option maxRecDepth 8192 in
/-- Claim C7 (amended): when the factory fails (panel missing, panel too
old, or GUI initialisation failed) the cached instance is a stub that
fails deterministically on its string representation with a RuntimeError
naming the panel dependency and citing a version (panel>=0.8.0 in the
import/outdated message — even though the checked minimum is 0.9.5 — and
panel>=0.9.5 in the initialisation message); plain attribute access and
item access fail with generic AttributeError/TypeError not carrying the
diagnostic, and member enumeration succeeds. -/
theorem claim_C7_amended (e : String) (tooOld guiOk : Bool) :
    do_import (Except.error e) tooOld guiOk = .stubImport e ∧
    do_import (Except.ok ()) true guiOk = .stubImport "False" ∧
    guiRepr (.stubImport e) = .error (.runtimeError (importFailMsg e)) ∧
    IntakeAdd.strContains (importFailMsg e) "panel" = true ∧
    IntakeAdd.strContains (importFailMsg e) "0.8.0" = true ∧
    guiRepr .stubInit = .error (.runtimeError initFailMsg) ∧
    IntakeAdd.strContains initFailMsg "panel" = true ∧
    IntakeAdd.strContains initFailMsg "0.9.5" = true ∧
    (∀ a, guiGetattr (.stubImport e) a = .error (.attributeError a)) ∧
    (∀ s, guiGetitem (.stubImport e) s
        = .error (.typeError "object is not subscriptable")) ∧
    guiDir (.stubImport e) = .ok objectDefaultMembers ∧
    guiDir .stubInit = .ok objectDefaultMembers := by
  refine ⟨rfl, rfl, rfl, ?_, ?_, rfl, ?_, ?_,
    fun a => rfl, fun s => rfl, rfl, rfl⟩
  · exact IntakeAdd.strContains_append importPreamble e "panel" (by decide)
  · exact IntakeAdd.strContains_append importPreamble e "0.8.0" (by decide)
  · decide
  · decide

/-- Claim C8: over any sequence of intercepted accesses to the lazy proxy
(attribute, item, repr, dir), the factory runs exactly once — on the
first access — and every access, the first included, is forwarded to the
instance produced by that single invocation. -/
theorem claim_C8_factory_once {α β : Type} (factory : Nat → α)
    (fwd : α → Access → β) (as : List Access) :
    (imRun factory fwd as imInit).1.factoryCalls = (if as = [] then 0 else 1) ∧
    (imRun factory fwd as imInit).2 = as.map (fun a => fwd (factory 0) a) := by
  cases as with
  | nil => exact ⟨rfl, rfl⟩
  | cons a rest =>
    have h1 : imRun factory fwd (a :: rest) (imInit : IMState α)
        = ({ cached := some (factory 0), factoryCalls := 1 },
           fwd (factory 0) a :: rest.map (fun x => fwd (factory 0) x)) := by
      simp only [imRun, imAccess, instantiate, imInit, imRun_cached]
    rw [h1]
    exact ⟨by simp, rfl⟩

end IntakeGuiInit
